import Mathlib

/-!
Verification development for the ADEGuard backend prediction pipeline.

This file gives a shallow embedding, in Lean, of the orchestration and
aggregation logic of the ADEGuard backend:

* `app/services/ner_service.py`      — `NERService.extract_entities`
* `app/services/severity_service.py` — `SeverityService.classify_severity`,
  `SeverityService._rule_based_prediction`
* `app/services/clustering_service.py` — `ClusteringService.analyze_cluster`
* `app/services/explainability_service.py` —
  `ExplainabilityService.generate_explanations`
* `app/services/prediction_service.py` — `PredictionService.predict` and its
  `_generate_summary` / `_generate_alerts` / `_generate_recommendations`
* `app/api/v1/endpoints/predict.py`  — the `predict_batch_reports` loop and
  its batch aggregation
* `app/models/request_models.py`     — the `BatchADERequest.reports`
  size bounds (`min_items=1`, `max_items=50`)

Python floats are modelled as exact rationals (`ℚ`); every constant in the
source is an exact decimal fraction, so comparisons and sums agree with the
float program at the granularity the specification states (tolerances of
`1e-6`).  Exception-raising collaborator calls (the transformer NER pipeline,
the pandas-backed cluster statistics, the SHAP/LIME generators, and the
per-report pipeline call made by the batch loop) are modelled as `Except`
valued oracles passed in as arguments; everything the repository itself
computes is translated directly from the Python source.
-/

namespace ADEGuard

/-! ## Entities and the NER service (`ner_service.py`) -/

/-- A raw span as returned by the NER pipeline collaborator
(`self.pipeline(text)` in `NERService.extract_entities`): keys
`word`, `entity_group`, `start`, `end` (here `stop`), `score`. -/
structure RawEntity where
  word : String
  entity_group : String
  start : Nat
  stop : Nat
  score : ℚ
deriving Repr, DecidableEq

/-- A processed entity appended by `NERService.extract_entities`: keys
`text`, `label`, `start`, `end` (here `stop`), `confidence`. -/
structure Entity where
  text : String
  label : String
  start : Nat
  stop : Nat
  confidence : ℚ
deriving Repr, DecidableEq

/-- `NERService.confidence_threshold`, set to `0.8` in `NERService.__init__`
and never reassigned. -/
def ner_confidence_threshold : ℚ := 8/10

/-- The `label_mapping` table of `NERService._map_label`. -/
def label_mapping : List (String × String) :=
  [("B-ADE", "ADE"), ("I-ADE", "ADE"),
   ("B-DRUG", "DRUG"), ("I-DRUG", "DRUG"),
   ("B-MODIFIER", "MODIFIER"), ("I-MODIFIER", "MODIFIER"),
   ("ADE", "ADE"), ("DRUG", "DRUG")]

/-- `NERService._map_label`: `label_mapping.get(entity_group, entity_group)`. -/
def map_label (entity_group : String) : String :=
  match label_mapping.lookup entity_group with
  | some l => l
  | none => entity_group

/-- The dictionary returned by `NERService.extract_entities`.  On the
exception path the code returns `{'entities': [], 'total_entities': 0,
'error': str(e)}` — without a `confidence_threshold` key, hence the
`Option` there. -/
structure NERResult where
  entities : List Entity
  total_entities : Nat
  confidence_threshold : Option ℚ
  error : Option String
deriving Repr, DecidableEq

/-- `NERService.extract_entities` (lines 69–99 of `ner_service.py`).  The
call `self.pipeline(text)` is an external collaborator (a transformer model
or the mock); its outcome — a list of raw spans, or a raised exception — is
the `pipeline_out` argument.  The loop keeps exactly the spans with
`score >= self.confidence_threshold` and relabels them with `_map_label`;
any exception is caught and converted to an empty success-shaped result
with an embedded error string. -/
def extract_entities (pipeline_out : Except String (List RawEntity)) : NERResult :=
  match pipeline_out with
  | .ok ner_results =>
      let entities : List Entity :=
        (ner_results.filter (fun e => ner_confidence_threshold ≤ e.score)).map
          (fun e =>
            { text := e.word
              label := map_label e.entity_group
              start := e.start
              stop := e.stop
              confidence := e.score })
      { entities := entities
        total_entities := entities.length
        confidence_threshold := some ner_confidence_threshold
        error := none }
  | .error e =>
      { entities := []
        total_entities := 0
        confidence_threshold := none
        error := some e }

/-! ## The severity service (`severity_service.py`) -/

/-- `SeverityService.severity_labels`. -/
def severity_labels : List String := ["mild", "moderate", "severe", "life_threatening"]

/-- Python's `str.lower()` (pointwise `Char.toLower`, as `String.toLower`,
written over the character list so that it computes by kernel reduction). -/
def py_lower (s : String) : String := String.mk (s.data.map Char.toLower)

/-- Python's `needle in hay` substring test on the character list:
does `needle` occur at the head of `hay`? -/
def chars_start_with : List Char → List Char → Bool
  | [], _ => true
  | _ :: _, [] => false
  | c :: cs, d :: ds => c == d && chars_start_with cs ds

/-- Python's `needle in hay` substring containment on character lists. -/
def chars_have_sub : List Char → List Char → Bool
  | [], needle => needle.isEmpty
  | d :: tl, needle => chars_start_with needle (d :: tl) || chars_have_sub tl needle

/-- Python's `needle in hay` on strings. -/
def str_contains (hay needle : String) : Bool :=
  chars_have_sub hay.data needle.data

/-- `any(word in text_lower for word in words)`. -/
def contains_any (text_lower : String) (words : List String) : Bool :=
  words.any fun w => str_contains text_lower w

/-- The life-threatening keyword list of `_rule_based_prediction`. -/
def life_threatening_words : List String :=
  ["death", "die", "life-threatening", "anaphylaxis", "cardiac arrest"]

/-- The severe keyword list of `_rule_based_prediction`. -/
def severe_words : List String :=
  ["hospitalized", "emergency", "severe", "intensive care"]

/-- The moderate keyword list of `_rule_based_prediction`. -/
def moderate_words : List String :=
  ["fever", "high temperature", "vomiting", "difficulty breathing"]

/-- `SeverityService._rule_based_prediction` (lines 77–95): returns
`(predicted_class, confidence, severity_probs)`.  The `entities` parameter
is accepted and ignored, exactly as in the source. -/
def rule_based_prediction (text : String) (entities : List Entity) :
    Nat × ℚ × List (String × ℚ) :=
  let text_lower := py_lower text
  if contains_any text_lower life_threatening_words then
    (3, 9/10, [("mild", 0), ("moderate", 5/100), ("severe", 5/100), ("life_threatening", 9/10)])
  else if contains_any text_lower severe_words then
    (2, 8/10, [("mild", 5/100), ("moderate", 15/100), ("severe", 8/10), ("life_threatening", 0)])
  else if contains_any text_lower moderate_words then
    (1, 7/10, [("mild", 2/10), ("moderate", 7/10), ("severe", 1/10), ("life_threatening", 0)])
  else
    (0, 6/10, [("mild", 6/10), ("moderate", 3/10), ("severe", 1/10), ("life_threatening", 0)])

/-- The dictionary returned by `SeverityService.classify_severity` on its
(always-taken) success path. -/
structure SeverityAnalysis where
  predicted_severity : String
  confidence : ℚ
  severity_probabilities : List (String × ℚ)
  method : String
deriving Repr, DecidableEq

/-- `SeverityService.classify_severity` (lines 53–75).  The `try` body is a
total computation over its (string/list) arguments: `_rule_based_prediction`
only lowercases and tests substrings, and `severity_labels[predicted_class]`
is always in range (`predicted_class ∈ {0,1,2,3}`, four labels), so the
`except` fallback (`'unknown'`, confidence `0.0`, empty distribution) is
unreachable for well-typed inputs and the embedding is the `try` body. -/
def classify_severity (text : String) (entities : List Entity)
    (patient_age : Option Nat) : SeverityAnalysis :=
  let r := rule_based_prediction text entities
  { predicted_severity := severity_labels.getD r.1 "unknown"
    confidence := r.2.1
    severity_probabilities := r.2.2
    method := "rule_based" }

/-! ## Optional stages: clustering and explainability -/

/-- The dictionary returned by `ClusteringService.analyze_cluster`.  The
age-group / severity distribution breakdowns are not consumed by any caller
modelled here and are omitted. -/
structure ClusterAnalysis where
  cluster_id : Int
  cluster_label : String
  cluster_size : Nat
  similarity_score : ℚ
  error : Option String
deriving Repr, DecidableEq

/-- The keyword rule of `ClusteringService.analyze_cluster` choosing
`(cluster_id, cluster_label)`. -/
def analyze_cluster_rule (text : String) : Int × String :=
  let text_lower := py_lower text
  if contains_any text_lower ["severe", "life-threatening", "hospitalized"] then
    (2, "Severe systemic reactions")
  else if contains_any text_lower ["moderate", "fever", "rash"] then
    (1, "Moderate allergic responses")
  else
    (0, "Mild post-vaccination reactions")

/-- `ClusteringService.analyze_cluster` (lines 59–108 of
`clustering_service.py`), for a service whose `cluster_data` is `None`
(the fixed statistics branch).  The possibility of an internal exception in
the `try` body is the `internal` oracle; on `.error` the code returns the
fallback record with `cluster_id = -1` and an embedded error string. -/
def analyze_cluster (internal : Except String Unit) (text : String) : ClusterAnalysis :=
  match internal with
  | .ok _ =>
      let c := analyze_cluster_rule text
      { cluster_id := c.1, cluster_label := c.2, cluster_size := 10,
        similarity_score := 75/100, error := none }
  | .error e =>
      { cluster_id := -1, cluster_label := "Unknown cluster", cluster_size := 0,
        similarity_score := 0, error := some e }

/-- The dictionary returned by `ExplainabilityService.generate_explanations`;
the mock SHAP/LIME feature tables are kept as the list of key terms they
are generated from. -/
structure ExplainabilityResult where
  explanation_text : String
  top_features : List String
  error : Option String
deriving Repr, DecidableEq

/-- `ExplainabilityService.generate_explanations` (lines 48–111 of
`explainability_service.py`).  The `internal` oracle models an exception in
the `try` body; on `.error` the code returns a placeholder record with an
embedded error string. -/
def generate_explanations (internal : Except String Unit)
    (severity_result : SeverityAnalysis) (entities : List Entity) :
    ExplainabilityResult :=
  match internal with
  | .ok _ =>
      let key_terms :=
        (entities.filter (fun e => e.label == "ADE" || e.label == "DRUG")).map
          Entity.text
      let explanation_text :=
        if severity_result.predicted_severity ∈ ["severe", "life_threatening"] then
          "Severity classified as " ++ severity_result.predicted_severity ++
            " due to presence of critical terms: " ++
            String.intercalate ", " (key_terms.take 3)
        else
          "Severity classified as " ++ severity_result.predicted_severity ++
            " based on symptom indicators and context"
      { explanation_text := explanation_text
        top_features := key_terms.take 3
        error := none }
  | .error e =>
      { explanation_text := "Unable to generate explanation: " ++ e
        top_features := []
        error := some e }

/-! ## The prediction pipeline (`prediction_service.py`) -/

/-- The summary dictionary built by `PredictionService._generate_summary`. -/
structure Summary where
  severity_level : String
  ade_entities_found : Nat
  drug_entities_found : Nat
  total_entities : Nat
  requires_attention : Bool
deriving Repr, DecidableEq

/-- `PredictionService._generate_summary` (lines 141–155). -/
def generate_summary (severity_analysis : SeverityAnalysis)
    (entities : List Entity) : Summary :=
  { severity_level := severity_analysis.predicted_severity
    ade_entities_found := (entities.filter (fun e => e.label == "ADE")).length
    drug_entities_found := (entities.filter (fun e => e.label == "DRUG")).length
    total_entities := entities.length
    requires_attention :=
      severity_analysis.predicted_severity ∈ ["severe", "life_threatening"] }

/-- The four alert strings that `PredictionService._generate_alerts` can
append.  The high/low-confidence alerts interpolate the confidence value
into the message (`f"... {confidence:.1%} ..."`); the constructor carries
that value. -/
inductive Alert where
  /-- `"🚨 CRITICAL: Life-threatening ADE detected - Immediate medical attention required"` -/
  | critical_life_threatening
  /-- `"⚠️ SEVERE: Severe ADE detected - Medical evaluation recommended"` -/
  | severe_warning
  /-- `"🎯 HIGH CONFIDENCE: Prediction confidence {confidence:.1%}"` -/
  | high_confidence (confidence : ℚ)
  /-- `"⚠️ LOW CONFIDENCE: Prediction confidence {confidence:.1%} - Manual review recommended"` -/
  | low_confidence (confidence : ℚ)
deriving Repr, DecidableEq

/-- `PredictionService._generate_alerts` (lines 157–173): an `if/elif` on
the predicted severity followed by an independent `if/elif` on the
confidence. -/
def generate_alerts (severity_analysis : SeverityAnalysis) : List Alert :=
  let severity := severity_analysis.predicted_severity
  let confidence := severity_analysis.confidence
  (if severity = "life_threatening" then [Alert.critical_life_threatening]
   else if severity = "severe" then [Alert.severe_warning]
   else []) ++
  (if confidence > 9/10 then [Alert.high_confidence confidence]
   else if confidence < 6/10 then [Alert.low_confidence confidence]
   else [])

/-- The urgent recommendation block of `_generate_recommendations`
(severity `severe` / `life_threatening`). -/
def urgent_recommendations : List String :=
  ["Immediately assess patient vital signs",
   "Consider discontinuation of suspected medication",
   "Document all symptoms and timeline thoroughly",
   "Report to pharmacovigilance system"]

/-- The moderate recommendation block of `_generate_recommendations`. -/
def moderate_recommendations : List String :=
  ["Monitor patient closely for symptom progression",
   "Consider dose adjustment or alternative medication",
   "Schedule follow-up within 24-48 hours"]

/-- The routine-monitoring recommendation block of
`_generate_recommendations` (the `else` branch). -/
def routine_recommendations : List String :=
  ["Continue monitoring for symptom changes",
   "Patient education on symptom recognition",
   "Document for future reference"]

/-- `PredictionService._generate_recommendations` (lines 175–200). -/
def generate_recommendations (severity_analysis : SeverityAnalysis) : List String :=
  let severity := severity_analysis.predicted_severity
  if severity ∈ ["severe", "life_threatening"] then urgent_recommendations
  else if severity = "moderate" then moderate_recommendations
  else routine_recommendations

/-- The fields of an `ADEReportRequest` that `PredictionService.predict`
and the batch endpoint read (`request_models.py`).  Note that
`confidence_threshold` (default `0.7`, pydantic bounds `0 ≤ · ≤ 1`) is a
field of the request — `predict` never reads it. -/
structure Report where
  symptom_text : String
  patient_age : Option Nat
  include_explainability : Bool
  include_clustering : Bool
  confidence_threshold : ℚ
deriving Repr, DecidableEq

/-- The outcomes of the three exception-capable collaborator calls a single
run of the pipeline can make: the transformer NER pipeline inside
`NERService.extract_entities`, and the `try` bodies of `analyze_cluster`
and `generate_explanations`. -/
structure CollabOutcomes where
  ner_pipeline : Except String (List RawEntity)
  cluster_internal : Except String Unit
  explain_internal : Except String Unit

/-- The result dictionary assembled by `PredictionService.predict`
(request id, timestamp and step timings omitted — wall-clock data). -/
structure PredictResult where
  extracted_entities : List Entity
  severity_analysis : SeverityAnalysis
  cluster_analysis : Option ClusterAnalysis
  explainability : Option ExplainabilityResult
  summary : Summary
  alerts : List Alert
  recommendations : List String
deriving Repr, DecidableEq

/-- `PredictionService.predict` (lines 65–139 of `prediction_service.py`).
Raises (`.error`) when the services are not initialized; otherwise runs
NER → severity → optional clustering → optional explainability → summary/
alerts/recommendations.  Each service call catches its own internal
exceptions (see `extract_entities`, `classify_severity`, `analyze_cluster`,
`generate_explanations`), so the `except`/re-`raise` wrapper of `predict`
itself is never triggered by a collaborator failure. -/
def predict (co : CollabOutcomes) (is_initialized : Bool) (req : Report) :
    Except String PredictResult :=
  if !is_initialized then .error "Services not initialized"
  else
    let ner_results := extract_entities co.ner_pipeline
    let severity_results :=
      classify_severity req.symptom_text ner_results.entities req.patient_age
    let cluster_analysis :=
      if req.include_clustering then
        some (analyze_cluster co.cluster_internal req.symptom_text)
      else none
    let explainability :=
      if req.include_explainability then
        some (generate_explanations co.explain_internal severity_results
          ner_results.entities)
      else none
    .ok
      { extracted_entities := ner_results.entities
        severity_analysis := severity_results
        cluster_analysis := cluster_analysis
        explainability := explainability
        summary := generate_summary severity_results ner_results.entities
        alerts := generate_alerts severity_results
        recommendations := generate_recommendations severity_results }

/-! ## The batch endpoint (`predict.py`, `predict_batch_reports`) -/

/-- The fields of a `BatchADERequest` that `predict_batch_reports` reads
(`request_models.py` lines 316–399). -/
structure BatchRequest where
  reports : List Report
  fail_fast : Bool
  return_individual_results : Bool
  batch_confidence_threshold : Option ℚ
  batch_disable_explainability : Bool
  batch_disable_clustering : Bool
deriving Repr, DecidableEq

/-- The batch-level overrides applied to each report's dictionary before the
per-report call (`predict.py` lines 130–136). -/
def apply_batch_overrides (breq : BatchRequest) (r : Report) : Report :=
  let r1 :=
    match breq.batch_confidence_threshold with
    | some t => { r with confidence_threshold := t }
    | none => r
  let r2 :=
    if breq.batch_disable_explainability then
      { r1 with include_explainability := false }
    else r1
  if breq.batch_disable_clustering then
    { r2 with include_clustering := false }
  else r2

/-- The structured error record appended on a per-report failure
(`predict.py` lines 164–170; timestamp omitted — wall-clock data). -/
structure ErrorInfo where
  report_index : Nat
  error : String
deriving Repr, DecidableEq

/-- The mutable loop state of `predict_batch_reports`
(`individual_results`, `successful_reports`, `failed_reports`, `errors`). -/
structure BatchState where
  individual_results : List PredictResult
  successful_reports : Nat
  failed_reports : Nat
  errors : List ErrorInfo
deriving Repr, DecidableEq

/-- The per-report pipeline call the batch loop makes
(`await prediction_service.predict(report_data)` wrapped in the loop's
`try`): given the report index and the overridden report, it either returns
a result or raises.  In the batch coordinator this is an external
collaborator. -/
def Pipeline : Type := Nat → Report → Except String PredictResult

/-- The `for i, report in enumerate(request.reports)` loop of
`predict_batch_reports` (lines 120–176): on success, bump the success
counter and (when `return_individual_results`) append the result; on
failure, bump the failure counter, append an error record, and `break`
when `fail_fast` is set. -/
def batch_loop (pipeline : Pipeline) (breq : BatchRequest) :
    List (Nat × Report) → BatchState → BatchState
  | [], s => s
  | (i, report) :: rest, s =>
    match pipeline i (apply_batch_overrides breq report) with
    | .ok result =>
        batch_loop pipeline breq rest
          { s with
            individual_results :=
              if breq.return_individual_results then
                s.individual_results ++ [result]
              else s.individual_results
            successful_reports := s.successful_reports + 1 }
    | .error e =>
        let s1 :=
          { s with
            failed_reports := s.failed_reports + 1
            errors := s.errors ++ [{ report_index := i, error := e }] }
        if breq.fail_fast then s1 else batch_loop pipeline breq rest s1

/-- Python dictionary counting, `d[k] = d.get(k, 0) + 1`: keys keep
insertion order, an existing key is incremented in place. -/
def bump (k : String) : List (String × Nat) → List (String × Nat)
  | [] => [(k, 1)]
  | (j, n) :: rest => if j = k then (j, n + 1) :: rest else (j, n) :: bump k rest

/-- `d.get(k, 0)` on an insertion-ordered counting dictionary (the first
binding of the key; `bump` never creates a second one). -/
def dist_count (k : String) : List (String × Nat) → Nat
  | [] => 0
  | (j, n) :: rest => if j = k then n else dist_count k rest

/-- The severity-distribution aggregation (`predict.py` lines 199–202):
count `result.severity_analysis.predicted_severity` over the collected
individual results.  (The code guards it with `if individual_results:`;
over an empty list the fold already yields the empty dictionary.) -/
def severity_distribution_of (results : List PredictResult) : List (String × Nat) :=
  results.foldl
    (fun dist result => bump result.severity_analysis.predicted_severity dist) []

/-- The counting key `f"{entity.label}:{entity.text}"` (line 218). -/
def entity_key (e : Entity) : String := e.label ++ ":" ++ e.text

/-- The entity tally (`predict.py` lines 215–219): a nested loop over the
collected results and their extracted entities. -/
def entity_counts_of (results : List PredictResult) : List (String × Nat) :=
  results.foldl
    (fun counts result =>
      result.extracted_entities.foldl
        (fun c e => bump (entity_key e) c) counts)
    []

/-- `key.split(":", 1)`: the part before the first colon and the part
after it. -/
def split_first_colon (s : String) : String × String :=
  let pre := s.data.takeWhile (fun c => c ≠ ':')
  (String.mk pre, String.mk (s.data.drop (pre.length + 1)))

/-- One row of the `top_entities` table (line 222–225). -/
structure TopEntity where
  entity : String
  label : String
  count : Nat
deriving Repr, DecidableEq

/-- `sorted(entity_counts.items(), key=lambda x: x[1], reverse=True)`:
Python's stable sort, descending by count, modelled by the (stable)
`List.mergeSort` with `le a b ↔ b.count ≤ a.count`. -/
def sorted_entity_counts (results : List PredictResult) : List (String × Nat) :=
  (entity_counts_of results).mergeSort (fun a b => decide (b.2 ≤ a.2))

/-- The `top_entities` table (`predict.py` lines 221–225): sort the tally
descending by count, keep the first 10, split each key back into label and
text. -/
def top_entities_of (results : List PredictResult) : List TopEntity :=
  ((sorted_entity_counts results).take 10).map fun kc =>
    { entity := (split_first_colon kc.1).2
      label := (split_first_colon kc.1).1
      count := kc.2 }

/-- The batch response fields computed by `predict_batch_reports`
(lines 178–242) that do not depend on wall-clock time.  `total_reports` is
`len(request.reports)` (used both in `batch_summary['total_reports']` and
`total_reports_processed`). -/
structure BatchOutput where
  individual_results : Option (List PredictResult)
  total_reports : Nat
  successful_reports : Nat
  failed_reports : Nat
  success_rate : ℚ
  severity_distribution : List (String × Nat)
  top_entities : List TopEntity
  errors : List ErrorInfo
  batch_status : String
deriving Repr, DecidableEq

/-- The body of `predict_batch_reports` after request validation: run the
loop, then compute `success_rate = successful / len(request.reports)`
(`0` for an empty list), the severity distribution and top-entity table
over the collected individual results, and the batch status. -/
def process_batch (pipeline : Pipeline) (breq : BatchRequest) : BatchOutput :=
  let s :=
    batch_loop pipeline breq breq.reports.enum
      { individual_results := [], successful_reports := 0,
        failed_reports := 0, errors := [] }
  { individual_results :=
      if breq.return_individual_results then some s.individual_results else none
    total_reports := breq.reports.length
    successful_reports := s.successful_reports
    failed_reports := s.failed_reports
    success_rate :=
      if breq.reports.length = 0 then 0
      else (s.successful_reports : ℚ) / (breq.reports.length : ℚ)
    severity_distribution := severity_distribution_of s.individual_results
    top_entities := top_entities_of s.individual_results
    errors := s.errors
    batch_status :=
      if s.failed_reports = 0 then "completed"
      else if s.successful_reports > 0 then "partial"
      else "failed" }

/-- The ways the request-schema layer can reject the `reports` field of a
`BatchADERequest` (`request_models.py` lines 319–323: `min_items=1`,
`max_items=50`).  `tooLarge` is the `BatchTooLargeError` of the
specification. -/
inductive BatchValidationError where
  | tooLarge
  | tooSmall
deriving Repr, DecidableEq

/-- The pydantic size validation of `BatchADERequest.reports`
(`Field(min_items=1, max_items=50)`): performed when the request object is
constructed, before the endpoint body runs. -/
def validate_batch_reports (reports : List Report) :
    Except BatchValidationError Unit :=
  if reports.length > 50 then .error .tooLarge
  else if reports.length < 1 then .error .tooSmall
  else .ok ()

/-- The batch endpoint as seen by a caller: schema validation of the
`reports` list, then the endpoint body.  A request rejected by validation
never reaches `process_batch`, so no collaborator is invoked (the result
is independent of `pipeline`). -/
def process_batch_endpoint (pipeline : Pipeline) (breq : BatchRequest) :
    Except BatchValidationError BatchOutput :=
  match validate_batch_reports breq.reports with
  | .error e => .error e
  | .ok _ => .ok (process_batch pipeline breq)

/-! ## Shared fixtures and helper lemmas -/

/-- A report fixture used by concrete witnesses (text is ≥ 3 words and
≥ 10 characters, as the request schema requires). -/
def sample_report : Report :=
  { symptom_text := "patient developed rash"
    patient_age := none
    include_explainability := true
    include_clustering := true
    confidence_threshold := 7/10 }

/-- Every entity surviving the filter in `extract_entities` carries a
confidence at least the service's own threshold. -/
theorem extract_entities_confidence (po : Except String (List RawEntity)) :
    ∀ e ∈ (extract_entities po).entities, ner_confidence_threshold ≤ e.confidence := by
  intro e he
  cases po with
  | ok l =>
      simp only [extract_entities, List.mem_map, List.mem_filter] at he
      obtain ⟨r, ⟨_, hscore⟩, rfl⟩ := he
      simpa using of_decide_eq_true hscore
  | error msg => simp [extract_entities] at he

/-! ## C1 — entity filtering and the confidence threshold -/

/-- Fixtures for C1: a raw NER span with score `0.85` and a report whose
own `confidence_threshold` is `0.95`. -/
def c1_raw : RawEntity :=
  { word := "rash", entity_group := "ADE", start := 18, stop := 22, score := 17/20 }

def c1_co : CollabOutcomes :=
  { ner_pipeline := .ok [c1_raw], cluster_internal := .ok (), explain_internal := .ok () }

def c1_req : Report :=
  { sample_report with confidence_threshold := 19/20 }

/-- The entity that `extract_entities` produces from `c1_raw`. -/
def c1_entity : Entity :=
  { text := "rash", label := "ADE", start := 18, stop := 22, confidence := 17/20 }

/-- C1 (counterexample): the claim says every returned entity confidence is
`≥` the report's `confidence_threshold`.  For a report with threshold
`0.95` and a span scored `0.85`, the pipeline returns the entity anyway
(the NER filter uses the service's fixed `0.8`), and `0.85 < 0.95`. -/
theorem C1_counterexample :
    ((predict c1_co true c1_req).toOption.map
        (fun r => r.extracted_entities.map Entity.confidence)) = some [17/20] ∧
    (17/20 : ℚ) < c1_req.confidence_threshold := by
  have h : decide (ner_confidence_threshold ≤ c1_raw.score) = true :=
    decide_eq_true (by norm_num [ner_confidence_threshold, c1_raw])
  constructor
  · simp only [predict, Bool.not_true, Bool.false_eq_true, if_false, Except.toOption,
      Option.map_some, c1_co, extract_entities, List.filter, h]
    rfl
  · norm_num [c1_req, sample_report]

/-- C1 (amended): the entity list returned by `predict` is filtered against
the NER service's own fixed threshold `0.8`, not the report's
`confidence_threshold` — which `predict` never consults, so the result is
unchanged when that field is replaced by any other value. -/
theorem C1_entities_meet_service_threshold :
    ∀ (co : CollabOutcomes) (is_initialized : Bool) (req : Report) (t : ℚ) (e : Entity),
      predict co is_initialized { req with confidence_threshold := t } =
        predict co is_initialized req ∧
      (e ∈ ((predict co is_initialized req).toOption.map
          PredictResult.extracted_entities).getD [] →
        ner_confidence_threshold ≤ e.confidence) := by
  intro co init req t e
  refine ⟨rfl, fun he => ?_⟩
  cases init with
  | false => simp [predict, Except.toOption] at he
  | true =>
      simp only [predict, Bool.not_true, Bool.false_eq_true, if_false,
        Except.toOption, Option.map_some, Option.getD_some] at he
      exact extract_entities_confidence co.ner_pipeline e he

/-- Witness for C1: the amended theorem applied to the concrete fixtures. -/
theorem C1_entities_meet_service_threshold_witness :
    predict c1_co true { c1_req with confidence_threshold := 1/2 } =
      predict c1_co true c1_req ∧
    ner_confidence_threshold ≤ c1_entity.confidence :=
  ⟨(C1_entities_meet_service_threshold c1_co true c1_req (1/2) c1_entity).1,
   (C1_entities_meet_service_threshold c1_co true c1_req (1/2) c1_entity).2 (by
    have h : decide (ner_confidence_threshold ≤ c1_raw.score) = true :=
      decide_eq_true (by norm_num [ner_confidence_threshold, c1_raw])
    simp only [predict, Bool.not_true, Bool.false_eq_true, if_false, Except.toOption,
      Option.map_some, Option.getD_some, c1_co, extract_entities, List.filter, h]
    exact List.mem_singleton.mpr rfl)⟩

/-! ## C3 — failure propagation -/

/-- C3 (counterexample): when the NER pipeline (a mandatory stage) raises
internally, `predict` still succeeds — the failure is swallowed into an
empty entity list, not reported up to the caller. -/
theorem C3_counterexample :
    ((predict ⟨.error "NER model raised", .ok (), .ok ()⟩ true sample_report).toOption.map
        PredictResult.extracted_entities) = some [] ∧
    ((predict ⟨.error "NER model raised", .ok (), .ok ()⟩ true sample_report).toOption.isSome)
      = true :=
  ⟨rfl, rfl⟩

/-- C3 (amended): every stage catches its own internal exception.  A
mandatory-stage (NER) failure is downgraded in-service to an empty entity
list with an embedded error string and the report still succeeds; the
optional stages likewise return error-marked placeholder payloads
(`cluster_id = -1`, explanation error text) rather than failing the
report. -/
theorem C3_stage_failures_swallowed :
    ∀ (msg : String) (ci xi : Except String Unit) (req : Report)
      (sa : SeverityAnalysis) (es : List Entity),
      ((predict ⟨.error msg, ci, xi⟩ true req).toOption.map
          PredictResult.extracted_entities) = some [] ∧
      (extract_entities (.error msg)).entities = [] ∧
      (extract_entities (.error msg)).error = some msg ∧
      (analyze_cluster (.error msg) req.symptom_text).cluster_id = -1 ∧
      (analyze_cluster (.error msg) req.symptom_text).error = some msg ∧
      (generate_explanations (.error msg) sa es).error = some msg := by
  intro msg ci xi req sa es
  exact ⟨rfl, rfl, rfl, rfl, rfl, rfl⟩

/-! ## The four branches of the rule-based severity classifier -/

/-- `_rule_based_prediction` returns one of exactly four concrete
outcomes, one per keyword tier. -/
theorem rule_based_cases (text : String) (entities : List Entity) :
    rule_based_prediction text entities =
      (3, 9/10, [("mild", 0), ("moderate", 5/100), ("severe", 5/100), ("life_threatening", 9/10)]) ∨
    rule_based_prediction text entities =
      (2, 8/10, [("mild", 5/100), ("moderate", 15/100), ("severe", 8/10), ("life_threatening", 0)]) ∨
    rule_based_prediction text entities =
      (1, 7/10, [("mild", 2/10), ("moderate", 7/10), ("severe", 1/10), ("life_threatening", 0)]) ∨
    rule_based_prediction text entities =
      (0, 6/10, [("mild", 6/10), ("moderate", 3/10), ("severe", 1/10), ("life_threatening", 0)]) := by
  simp only [rule_based_prediction]
  split
  · exact Or.inl rfl
  · split
    · exact Or.inr (Or.inl rfl)
    · split
      · exact Or.inr (Or.inr (Or.inl rfl))
      · exact Or.inr (Or.inr (Or.inr rfl))

/-- The classifier output on the life-threatening tier. -/
def sa_life : SeverityAnalysis :=
  { predicted_severity := "life_threatening"
    confidence := 9/10
    severity_probabilities :=
      [("mild", 0), ("moderate", 5/100), ("severe", 5/100), ("life_threatening", 9/10)]
    method := "rule_based" }

/-- The classifier output on the severe tier. -/
def sa_severe : SeverityAnalysis :=
  { predicted_severity := "severe"
    confidence := 8/10
    severity_probabilities :=
      [("mild", 5/100), ("moderate", 15/100), ("severe", 8/10), ("life_threatening", 0)]
    method := "rule_based" }

/-- The classifier output on the moderate tier. -/
def sa_moderate : SeverityAnalysis :=
  { predicted_severity := "moderate"
    confidence := 7/10
    severity_probabilities :=
      [("mild", 2/10), ("moderate", 7/10), ("severe", 1/10), ("life_threatening", 0)]
    method := "rule_based" }

/-- The classifier output on the default (mild) tier. -/
def sa_mild : SeverityAnalysis :=
  { predicted_severity := "mild"
    confidence := 6/10
    severity_probabilities :=
      [("mild", 6/10), ("moderate", 3/10), ("severe", 1/10), ("life_threatening", 0)]
    method := "rule_based" }

/-- `classify_severity` always returns one of the four tier outputs. -/
theorem classify_severity_cases (text : String) (entities : List Entity)
    (age : Option Nat) :
    classify_severity text entities age = sa_life ∨
    classify_severity text entities age = sa_severe ∨
    classify_severity text entities age = sa_moderate ∨
    classify_severity text entities age = sa_mild := by
  rcases rule_based_cases text entities with h | h | h | h <;>
    simp [classify_severity, h, severity_labels, sa_life, sa_severe, sa_moderate, sa_mild]

/-! ## C8 — the probability distribution -/

/-- C8: every `SeverityResult` produced by the severity classifier carries a
probability distribution whose keys are exactly the four defined labels
(`mild`, `moderate`, `severe`, `life_threatening`), in the order of the
scale, and whose values sum to `1` within `1e-6` (in the rational model the
sum is exactly `1` on every branch). -/
theorem C8_probability_distribution :
    ∀ (text : String) (entities : List Entity) (age : Option Nat),
      ((classify_severity text entities age).severity_probabilities.map Prod.fst)
        = severity_labels ∧
      |((classify_severity text entities age).severity_probabilities.map Prod.snd).sum - 1|
        ≤ 1/1000000 := by
  intro t es age
  rcases classify_severity_cases t es age with h | h | h | h <;>
    rw [h] <;>
    exact ⟨rfl, by norm_num [sa_life, sa_severe, sa_moderate, sa_mild, severity_labels]⟩

/-! ## C9 — the end-to-end mild scenario -/

/-- On the scenario text the classifier lands in the default tier. -/
theorem classify_c9 : ∀ (es : List Entity) (age : Option Nat),
    classify_severity "mild tiredness for one day" es age = sa_mild :=
  fun _ _ => rfl

/-- C9: for the input text `"mild tiredness for one day"` the pipeline
predicts severity `mild`, emits no alerts, and returns exactly the
routine-monitoring recommendation block — which shares no entry with the
urgent-action or dose-adjustment (moderate) blocks. -/
theorem C9_mild_scenario :
    ∀ (co : CollabOutcomes) (age : Option Nat) (ie ic : Bool) (ct : ℚ),
      ((predict co true
          { symptom_text := "mild tiredness for one day", patient_age := age,
            include_explainability := ie, include_clustering := ic,
            confidence_threshold := ct }).toOption.map
        (fun r => (r.severity_analysis.predicted_severity, r.alerts, r.recommendations)))
        = some ("mild", ([] : List Alert), routine_recommendations) ∧
      (routine_recommendations.all fun s =>
        !(urgent_recommendations.contains s) && !(moderate_recommendations.contains s))
        = true := by
  intro co age ie ic ct
  constructor
  · simp only [predict, Bool.not_true, Bool.false_eq_true, if_false, Except.toOption,
      Option.map_some, classify_c9]
    norm_num [sa_mild, generate_alerts, generate_recommendations]
    constructor
    · rw [if_neg (by decide), if_neg (by decide)]
    · rw [if_neg (by decide), if_neg (by decide)]
  · decide

/-! ## C10 — confidence values and confidence alerts -/

/-- Does an alert come from the severity branch (rather than from the
high/low-confidence branch) of `_generate_alerts`? -/
def not_confidence_alert : Alert → Bool
  | .high_confidence _ => false
  | .low_confidence _ => false
  | _ => true

/-- The alerts generated for any classifier output contain no
high-confidence and no low-confidence alert. -/
theorem generate_alerts_no_confidence_alerts :
    ∀ (text : String) (entities : List Entity) (age : Option Nat),
      ((generate_alerts (classify_severity text entities age)).all not_confidence_alert)
        = true := by
  have key : ∀ sa : SeverityAnalysis, ¬ sa.confidence > 9/10 → ¬ sa.confidence < 6/10 →
      ((generate_alerts sa).all not_confidence_alert) = true := by
    intro sa h1 h2
    simp only [generate_alerts]
    rw [if_neg h1, if_neg h2]
    split
    · rfl
    · split
      · rfl
      · rfl
  intro t es age
  rcases classify_severity_cases t es age with h | h | h | h <;> rw [h] <;>
    exact key _ (by norm_num [sa_life, sa_severe, sa_moderate, sa_mild])
      (by norm_num [sa_life, sa_severe, sa_moderate, sa_mild])

/-- C10: the rule-based classifier's confidence is always one of
`{0.6, 0.7, 0.8, 0.9}`, equals the probability assigned to the predicted
label, and is the maximum of the returned distribution; consequently no
report result of `predict` ever carries a low-confidence (`< 0.6`) or
high-confidence (`> 0.9`) alert. -/
theorem C10_confidence_invariant :
    ∀ (text : String) (entities : List Entity) (age : Option Nat)
      (co : CollabOutcomes) (req : Report),
      ((classify_severity text entities age).confidence = 6/10 ∨
       (classify_severity text entities age).confidence = 7/10 ∨
       (classify_severity text entities age).confidence = 8/10 ∨
       (classify_severity text entities age).confidence = 9/10) ∧
      (((classify_severity text entities age).severity_probabilities.find?
          (fun p => p.1 = (classify_severity text entities age).predicted_severity)).map
          Prod.snd) = some (classify_severity text entities age).confidence ∧
      ((classify_severity text entities age).severity_probabilities.all
        (fun p => p.2 ≤ (classify_severity text entities age).confidence)) = true ∧
      ((generate_alerts (classify_severity text entities age)).all not_confidence_alert)
        = true ∧
      ((predict co true req).toOption.map
        (fun r => r.alerts.all not_confidence_alert)) = some true := by
  intro t es age co req
  refine ⟨?_, ?_, ?_, generate_alerts_no_confidence_alerts t es age, ?_⟩
  · rcases classify_severity_cases t es age with h | h | h | h <;> rw [h] <;>
      norm_num [sa_life, sa_severe, sa_moderate, sa_mild]
  · rcases classify_severity_cases t es age with h | h | h | h <;> rw [h] <;> rfl
  · rcases classify_severity_cases t es age with h | h | h | h <;> rw [h] <;>
      · simp only [List.all_cons, List.all_nil, Bool.and_eq_true, decide_eq_true_eq,
          sa_life, sa_severe, sa_moderate, sa_mild]
        norm_num
  · simp only [predict, Bool.not_true, Bool.false_eq_true, if_false, Except.toOption,
      Option.map_some']
    exact congrArg some (generate_alerts_no_confidence_alerts req.symptom_text
      (extract_entities co.ner_pipeline).entities req.patient_age)

/-! ## Batch helper lemmas -/

/-- A pipeline-result fixture used by concrete batch scenarios (the batch
coordinator treats the per-report pipeline as an oracle, so any well-typed
result may be returned by it). -/
def sample_result (sev : String) (ents : List Entity) : PredictResult :=
  { extracted_entities := ents
    severity_analysis :=
      { predicted_severity := sev, confidence := 6/10,
        severity_probabilities := [], method := "rule_based" }
    cluster_analysis := none
    explainability := none
    summary :=
      { severity_level := sev, ade_entities_found := 0, drug_entities_found := 0,
        total_entities := ents.length, requires_attention := false }
    alerts := []
    recommendations := [] }

/-- Counting after a `bump`: the bumped key gains one, others are kept. -/
theorem dist_count_bump (k j : String) (d : List (String × Nat)) :
    dist_count k (bump j d) = dist_count k d + (if j = k then 1 else 0) := by
  induction d with
  | nil => by_cases h : j = k <;> simp [bump, dist_count, h]
  | cons p rest ih =>
      obtain ⟨a, n⟩ := p
      simp only [bump]
      by_cases haj : a = j
      · subst haj
        by_cases hak : a = k <;> simp [dist_count, hak, if_pos rfl]
      · rw [if_neg haj]
        by_cases hak : a = k
        · subst hak
          have hjk : ¬ j = a := fun hh => haj hh.symm
          simp [dist_count, hjk]
        · simp [dist_count, hak, ih]

/-- The severity tally: `dist_count` of a key equals the number of results
predicted with that severity, plus whatever the accumulator held. -/
theorem severity_dist_count (results : List PredictResult) :
    ∀ (acc : List (String × Nat)) (k : String),
      dist_count k (results.foldl
          (fun dist result => bump result.severity_analysis.predicted_severity dist) acc)
        = dist_count k acc +
          (results.filter
            (fun r => r.severity_analysis.predicted_severity = k)).length := by
  induction results with
  | nil => intro acc k; simp
  | cons r rs ih =>
      intro acc k
      simp only [List.foldl_cons, List.filter_cons]
      rw [ih, dist_count_bump]
      by_cases h : r.severity_analysis.predicted_severity = k <;> simp [h] <;> omega

/-- When `return_individual_results` is off, the loop never collects a
result. -/
theorem batch_loop_results_of_flag_false (pipeline : Pipeline) (breq : BatchRequest)
    (hflag : breq.return_individual_results = false) :
    ∀ (items : List (Nat × Report)) (s : BatchState),
      (batch_loop pipeline breq items s).individual_results = s.individual_results := by
  intro items
  induction items with
  | nil => intro s; rfl
  | cons p rest ih =>
      intro s
      obtain ⟨i, r⟩ := p
      simp only [batch_loop]
      cases hp : pipeline i (apply_batch_overrides breq r) with
      | ok res => rw [ih]; simp [hflag]
      | error e => by_cases hf : breq.fail_fast <;> simp [hf, ih]

/-- A run over a prefix of successes composes with the rest of the loop. -/
theorem batch_loop_append (pipeline : Pipeline) (breq : BatchRequest) :
    ∀ (xs ys : List (Nat × Report)) (s : BatchState),
      (∀ p ∈ xs, ∃ res, pipeline p.1 (apply_batch_overrides breq p.2) = Except.ok res) →
      batch_loop pipeline breq (xs ++ ys) s =
        batch_loop pipeline breq ys (batch_loop pipeline breq xs s) := by
  intro xs
  induction xs with
  | nil => intro ys s _; rfl
  | cons p rest ih =>
      intro ys s hok
      obtain ⟨i, r⟩ := p
      obtain ⟨res, hres⟩ := hok (i, r) (List.mem_cons_self _ _)
      simp only [List.cons_append, batch_loop, hres]
      exact ih ys _ (fun q hq => hok q (List.mem_cons_of_mem _ hq))

/-- Statistics of a loop run in which every report succeeds. -/
theorem batch_loop_ok_stats (pipeline : Pipeline) (breq : BatchRequest) :
    ∀ (items : List (Nat × Report)) (s : BatchState),
      (∀ p ∈ items, ∃ res, pipeline p.1 (apply_batch_overrides breq p.2) = Except.ok res) →
      (batch_loop pipeline breq items s).successful_reports
          = s.successful_reports + items.length ∧
      (batch_loop pipeline breq items s).failed_reports = s.failed_reports ∧
      (batch_loop pipeline breq items s).errors = s.errors ∧
      (batch_loop pipeline breq items s).individual_results.length
          ≤ s.individual_results.length + items.length := by
  intro items
  induction items with
  | nil => intro s _; exact ⟨rfl, rfl, rfl, Nat.le_refl _⟩
  | cons p rest ih =>
      intro s hok
      obtain ⟨i, r⟩ := p
      obtain ⟨res, hres⟩ := hok (i, r) (List.mem_cons_self _ _)
      simp only [batch_loop, hres]
      obtain ⟨h1, h2, h3, h4⟩ := ih _ (fun q hq => hok q (List.mem_cons_of_mem _ hq))
      refine ⟨?_, h2, h3, ?_⟩
      · rw [h1]; simp; omega
      · refine le_trans h4 ?_
        by_cases hflag : breq.return_individual_results <;>
          simp [hflag, List.length_append] <;> omega

/-! ## C2 — the batch severity distribution -/

/-- A pipeline oracle returning severities `mild, severe, severe, …`
(the spec's aggregation example). -/
def c2_pipeline : Pipeline := fun i _ =>
  .ok (sample_result (if i == 0 then "mild" else "severe") [])

/-- Three reports, individual results collected. -/
def c2_breq_on : BatchRequest :=
  { reports := List.replicate 3 sample_report
    fail_fast := false
    return_individual_results := true
    batch_confidence_threshold := none
    batch_disable_explainability := false
    batch_disable_clustering := false }

/-- One successful report, individual results not collected. -/
def c2_breq_off : BatchRequest :=
  { c2_breq_on with reports := [sample_report], return_individual_results := false }

/-- C2 (counterexample): a batch with one successful `mild` report but
`return_individual_results = false` yields an *empty* severity
distribution, not `{mild: 1}` — the aggregation runs over the collected
individual results only. -/
theorem C2_counterexample :
    (process_batch c2_pipeline c2_breq_off).successful_reports = 1 ∧
    (process_batch c2_pipeline c2_breq_off).severity_distribution = [] := by
  exact ⟨rfl, rfl⟩

/-- C2 (amended): `severity_distribution` maps each severity label to its
count across the successful results *collected in* `individual_results`;
when `return_individual_results` is off nothing is collected and the
distribution is empty. -/
theorem C2_severity_distribution :
    ∀ (pipeline : Pipeline) (breq : BatchRequest) (k : String),
      dist_count k (process_batch pipeline breq).severity_distribution =
        (((process_batch pipeline breq).individual_results.getD []).filter
          (fun r => r.severity_analysis.predicted_severity = k)).length ∧
      (breq.return_individual_results = false →
        (process_batch pipeline breq).severity_distribution = []) := by
  intro pipeline breq k
  constructor
  · simp only [process_batch, severity_distribution_of]
    cases hflag : breq.return_individual_results with
    | true =>
        simp only [hflag, if_true, Option.getD_some]
        rw [severity_dist_count]
        simp [dist_count]
    | false =>
        rw [if_neg (by simp [hflag]),
          batch_loop_results_of_flag_false pipeline breq hflag]
        simp [dist_count]
  · intro hflag
    simp only [process_batch, severity_distribution_of]
    rw [batch_loop_results_of_flag_false pipeline breq hflag]
    rfl

/-- Witness for C2: the amended theorem at the concrete three-report batch
(severities `mild, severe, severe`) and at the collection-off batch; the
extra conjunct exhibits the resulting distribution `{mild: 1, severe: 2}`. -/
theorem C2_severity_distribution_witness :
    dist_count "severe" (process_batch c2_pipeline c2_breq_on).severity_distribution =
      (((process_batch c2_pipeline c2_breq_on).individual_results.getD []).filter
        (fun r => r.severity_analysis.predicted_severity = "severe")).length ∧
    (process_batch c2_pipeline c2_breq_off).severity_distribution = [] ∧
    (process_batch c2_pipeline c2_breq_on).severity_distribution =
      [("mild", 1), ("severe", 2)] :=
  ⟨(C2_severity_distribution c2_pipeline c2_breq_on "severe").1,
   (C2_severity_distribution c2_pipeline c2_breq_off "severe").2 rfl,
   rfl⟩

/-! ## C4 — the batch-size ceiling -/

/-- C4: a batch of 51 or more reports is rejected by the request-schema
bound (`max_items=50`) before the endpoint body runs: the outcome is the
size error for *every* pipeline oracle, so no analysis collaborator is ever
invoked. -/
theorem C4_batch_too_large :
    ∀ (pipeline : Pipeline) (breq : BatchRequest),
      51 ≤ breq.reports.length →
      process_batch_endpoint pipeline breq = .error .tooLarge := by
  intro pipeline breq h
  simp only [process_batch_endpoint, validate_batch_reports]
  rw [if_pos (by omega)]

/-- A 51-report batch request. -/
def c4_breq : BatchRequest :=
  { c2_breq_on with reports := List.replicate 51 sample_report }

/-- Witness for C4: the theorem at a concrete 51-report batch and a
concrete pipeline oracle. -/
theorem C4_batch_too_large_witness :
    process_batch_endpoint c2_pipeline c4_breq = .error .tooLarge :=
  C4_batch_too_large c2_pipeline c4_breq
    (by simp [c4_breq, c2_breq_on, List.length_replicate])

/-! ## C6 — the success-rate denominator -/

/-- C6: `success_rate` is the number of successful reports divided by the
number of *submitted* reports (`len(request.reports)`) — also when the
fail-fast break leaves some submitted reports unattempted. -/
theorem C6_success_rate_denominator :
    ∀ (pipeline : Pipeline) (breq : BatchRequest),
      breq.reports ≠ [] →
      (process_batch pipeline breq).success_rate =
        ((process_batch pipeline breq).successful_reports : ℚ)
          / (breq.reports.length : ℚ) ∧
      (process_batch pipeline breq).total_reports = breq.reports.length := by
  intro pipeline breq h
  constructor
  · simp only [process_batch]
    rw [if_neg (fun hl => h (List.length_eq_zero.mp hl))]
  · rfl

/-- The fail-fast scenario pipeline: the report at index 2 fails, all
others succeed. -/
def c5_pipeline : Pipeline := fun i _ =>
  if i == 2 then .error "simulated pipeline failure"
  else .ok (sample_result "mild" [{ text := "fever", label := "ADE", start := 0, stop := 5, confidence := 9/10 }])

/-- Five submitted reports with `fail_fast` on. -/
def c5_breq : BatchRequest :=
  { reports := List.replicate 5 sample_report
    fail_fast := true
    return_individual_results := true
    batch_confidence_threshold := none
    batch_disable_explainability := false
    batch_disable_clustering := false }

/-- Witness for C6: in the fail-fast batch of 5 where processing stops at
index 2, the denominator is still the full submitted count (5). -/
theorem C6_success_rate_denominator_witness :
    (process_batch c5_pipeline c5_breq).success_rate =
      ((process_batch c5_pipeline c5_breq).successful_reports : ℚ)
        / (c5_breq.reports.length : ℚ) ∧
    (process_batch c5_pipeline c5_breq).total_reports = c5_breq.reports.length :=
  C6_success_rate_denominator c5_pipeline c5_breq (by simp [c5_breq])

/-! ## C5 — fail-fast stops the loop -/

/-- Every element of an enumerated take-prefix is an in-range
`(index, report)` pair of the original list. -/
theorem mem_enumFrom_take (l : List Report) (k : Nat) (p : Nat × Report)
    (hp : p ∈ List.enumFrom 0 (l.take k)) :
    p.1 < k ∧ l.get? p.1 = some p.2 := by
  obtain ⟨m, hm⟩ := List.mem_iff_get?.mp hp
  rw [List.get?_eq_getElem?, List.getElem?_enumFrom] at hm
  cases htk : (l.take k)[m]? with
  | none => rw [htk] at hm; simp at hm
  | some a =>
      rw [htk] at hm
      simp only [Option.map_some', Option.some.injEq] at hm
      have hmk : m < k := by
        obtain ⟨hlt, -⟩ := List.getElem?_eq_some.mp htk
        have := List.length_take k l
        omega
      have hrep : l[m]? = some a := by
        rw [List.getElem?_take] at htk
        simpa [hmk] using htk
      subst hm
      exact ⟨by simpa using hmk, by simpa [List.get?_eq_getElem?] using hrep⟩

/-- C5: with `fail_fast` on, if every report before index `k` succeeds and
the report at index `k` fails, the loop stops right after that failure:
`successful = k`, `failed = 1` (so `successful + failed = k + 1`), the only
error record carries index `k`, and at most `k` individual results exist —
none for any index after `k`. -/
theorem C5_fail_fast_stops :
    ∀ (pipeline : Pipeline) (breq : BatchRequest) (k : Nat) (rk : Report) (e : String),
      breq.fail_fast = true →
      breq.reports.get? k = some rk →
      (∀ i r, i < k → breq.reports.get? i = some r →
        ∃ res, pipeline i (apply_batch_overrides breq r) = Except.ok res) →
      pipeline k (apply_batch_overrides breq rk) = Except.error e →
      (process_batch pipeline breq).successful_reports = k ∧
      (process_batch pipeline breq).failed_reports = 1 ∧
      (process_batch pipeline breq).successful_reports
        + (process_batch pipeline breq).failed_reports = k + 1 ∧
      (process_batch pipeline breq).errors = [{ report_index := k, error := e }] ∧
      ((process_batch pipeline breq).individual_results.getD []).length ≤ k := by
  intro pipeline breq k rk e hff hget hbefore hfail
  obtain ⟨hk, -⟩ := List.get?_eq_some.mp hget
  have hgetElem : breq.reports[k] = rk := by
    have := hget
    rw [List.get?_eq_getElem?] at this
    obtain ⟨h2, hv⟩ := List.getElem?_eq_some.mp this
    exact hv
  have hsplit : breq.reports
      = breq.reports.take k ++ rk :: breq.reports.drop (k + 1) := by
    conv_lhs => rw [← List.take_append_drop k breq.reports]
    rw [← List.getElem_cons_drop breq.reports k hk, hgetElem]
  have hlen_take : (breq.reports.take k).length = k :=
    List.length_take_of_le (Nat.le_of_lt hk)
  have henum : breq.reports.enum
      = List.enumFrom 0 (breq.reports.take k)
        ++ (k, rk) :: List.enumFrom (k + 1) (breq.reports.drop (k + 1)) := by
    conv_lhs => rw [List.enum, hsplit]
    rw [List.enumFrom_append, List.enumFrom_cons, hlen_take]
    simp
  have hpre : ∀ p ∈ List.enumFrom 0 (breq.reports.take k),
      ∃ res, pipeline p.1 (apply_batch_overrides breq p.2) = Except.ok res := by
    intro p hp
    obtain ⟨hlt, hget2⟩ := mem_enumFrom_take breq.reports k p hp
    exact hbefore p.1 p.2 hlt hget2
  simp only [process_batch, henum]
  rw [batch_loop_append pipeline breq _ _ _ hpre]
  obtain ⟨h1, h2, h3, h4⟩ :=
    batch_loop_ok_stats pipeline breq (List.enumFrom 0 (breq.reports.take k))
      { individual_results := [], successful_reports := 0,
        failed_reports := 0, errors := [] } hpre
  rw [List.enumFrom_length, hlen_take] at h1
  rw [List.enumFrom_length, hlen_take] at h4
  simp only [batch_loop, hfail, hff, if_true]
  refine ⟨by rw [h1]; simp, by rw [h2], by rw [h1, h2]; simp, by rw [h3]; rfl, ?_⟩
  cases hflag : breq.return_individual_results with
  | true => simpa [hflag] using h4
  | false => simp [hflag]

/-- Witness for C5: the concrete fail-fast batch of 5 with the failure at
index 2 — `successful + failed = 3`, the single error record carries
index 2, and at most 2 individual results exist. -/
theorem C5_fail_fast_stops_witness :
    (process_batch c5_pipeline c5_breq).successful_reports = 2 ∧
    (process_batch c5_pipeline c5_breq).failed_reports = 1 ∧
    (process_batch c5_pipeline c5_breq).successful_reports
      + (process_batch c5_pipeline c5_breq).failed_reports = 2 + 1 ∧
    (process_batch c5_pipeline c5_breq).errors
      = [{ report_index := 2, error := "simulated pipeline failure" }] ∧
    ((process_batch c5_pipeline c5_breq).individual_results.getD []).length ≤ 2 :=
  C5_fail_fast_stops c5_pipeline c5_breq 2 sample_report "simulated pipeline failure"
    rfl rfl
    (fun i r hi hg =>
      ⟨sample_result "mild"
        [{ text := "fever", label := "ADE", start := 0, stop := 5, confidence := 9/10 }],
       by
        have hne : (i == 2) = false := beq_eq_false_iff_ne.mpr (Nat.ne_of_lt hi)
        simp [c5_pipeline, hne]⟩)
    rfl


/-! ## C7 — the top-entities table -/

/-- Tallying one result's entities: `dist_count` of a key grows by the
number of entities with that key. -/
theorem entity_fold_count (es : List Entity) :
    ∀ (acc : List (String × Nat)) (kk : String),
      dist_count kk (es.foldl (fun c e => bump (entity_key e) c) acc)
        = dist_count kk acc + (es.filter (fun e => entity_key e = kk)).length := by
  induction es with
  | nil => intro acc kk; simp
  | cons e es ih =>
      intro acc kk
      simp only [List.foldl_cons, List.filter_cons]
      rw [ih, dist_count_bump]
      by_cases h : entity_key e = kk <;> simp [h] <;> omega

/-- The full tally: `dist_count` of a key equals the number of occurrences
of that `(label, text)` key across all results' entities. -/
theorem entity_counts_count (results : List PredictResult) :
    ∀ (acc : List (String × Nat)) (kk : String),
      dist_count kk (results.foldl
          (fun counts result =>
            result.extracted_entities.foldl (fun c e => bump (entity_key e) c) counts)
          acc)
        = dist_count kk acc +
          (((results.map PredictResult.extracted_entities).flatten).filter
            (fun e => entity_key e = kk)).length := by
  induction results with
  | nil => intro acc kk; simp
  | cons r rs ih =>
      intro acc kk
      simp only [List.foldl_cons, List.map_cons, List.flatten_cons, List.filter_append,
        List.length_append]
      rw [ih, entity_fold_count]
      omega

/-- C7: the `top_entities` table is the descending-by-count stable sort of
the `(label, text)` tally of the collected results' entities, truncated to
10 rows: it has at most 10 entries, its counts are non-increasing, the
tally counts occurrences exactly, entries with equal counts keep their
first-seen (tally) order, and each row is the key split back at its first
colon. -/
theorem C7_top_entities :
    ∀ (results : List PredictResult),
      (top_entities_of results).length ≤ 10 ∧
      List.Pairwise (fun a b => b.count ≤ a.count) (top_entities_of results) ∧
      (∀ kk, dist_count kk (entity_counts_of results) =
        (((results.map PredictResult.extracted_entities).flatten).filter
          (fun e => entity_key e = kk)).length) ∧
      (∀ a b : String × Nat, a.2 = b.2 →
        [a, b].Sublist (entity_counts_of results) →
        [a, b].Sublist (sorted_entity_counts results)) ∧
      top_entities_of results =
        ((sorted_entity_counts results).take 10).map (fun kc =>
          { entity := (split_first_colon kc.1).2
            label := (split_first_colon kc.1).1
            count := kc.2 }) := by
  intro results
  have htrans : ∀ (a b c : String × Nat),
      (fun x y : String × Nat => decide (y.2 ≤ x.2)) a b = true →
      (fun x y : String × Nat => decide (y.2 ≤ x.2)) b c = true →
      (fun x y : String × Nat => decide (y.2 ≤ x.2)) a c = true := by
    intro a b c hab hbc
    simp only [decide_eq_true_eq] at hab hbc ⊢
    omega
  have htotal : ∀ (a b : String × Nat),
      ((fun x y : String × Nat => decide (y.2 ≤ x.2)) a b
        || (fun x y : String × Nat => decide (y.2 ≤ x.2)) b a) = true := by
    intro a b
    rcases Nat.le_total a.2 b.2 with h | h <;> simp [h]
  refine ⟨?_, ?_, ?_, ?_, rfl⟩
  · simp only [top_entities_of, List.length_map, List.length_take]
    omega
  · have hs := List.sorted_mergeSort htrans htotal (entity_counts_of results)
    have hs2 : List.Pairwise (fun a b : String × Nat => b.2 ≤ a.2)
        (sorted_entity_counts results) := by
      refine List.Pairwise.imp ?_ hs
      intro a b h
      simpa using h
    have htake := List.Pairwise.sublist (List.take_sublist 10 _) hs2
    exact List.pairwise_map.mpr htake
  · intro kk
    simp only [entity_counts_of]
    rw [entity_counts_count]
    simp [dist_count]
  · intro a b hab hsub
    exact List.pair_sublist_mergeSort htrans htotal (by simp [hab]) hsub

/-- An entity fixture for the top-entities scenario. -/
def c7_entity (label txt : String) : Entity :=
  { text := txt, label := label, start := 0, stop := 0, confidence := 9/10 }

/-- One successful result whose entities tally to
`{("ADE","fever"): 5, ("DRUG","aspirin"): 5, ("ADE","rash"): 3}` with
`fever` seen before `aspirin` before `rash`. -/
def c7_results : List PredictResult :=
  [sample_result "mild"
    (List.replicate 5 (c7_entity "ADE" "fever")
      ++ List.replicate 5 (c7_entity "DRUG" "aspirin")
      ++ List.replicate 3 (c7_entity "ADE" "rash"))]

/-- Witness for C7: at the spec's example counts the table keeps the tied
pair in first-seen order (`fever` before `aspirin`), sorted descending,
with at most 10 rows. -/
theorem C7_top_entities_witness :
    (top_entities_of c7_results).length ≤ 10 ∧
    [("ADE:fever", 5), ("DRUG:aspirin", 5)].Sublist (sorted_entity_counts c7_results) ∧
    top_entities_of c7_results =
      [{ entity := "fever", label := "ADE", count := 5 },
       { entity := "aspirin", label := "DRUG", count := 5 },
       { entity := "rash", label := "ADE", count := 3 }] := by
  have htally : entity_counts_of c7_results
      = [("ADE:fever", 5), ("DRUG:aspirin", 5), ("ADE:rash", 3)] := rfl
  have hsorted : sorted_entity_counts c7_results
      = [("ADE:fever", 5), ("DRUG:aspirin", 5), ("ADE:rash", 3)] := by
    simp only [sorted_entity_counts, htally]
    exact List.mergeSort_of_sorted (by decide)
  refine ⟨(C7_top_entities c7_results).1, ?_, ?_⟩
  · refine (C7_top_entities c7_results).2.2.2.1 ("ADE:fever", 5) ("DRUG:aspirin", 5) rfl ?_
    rw [htally]
    exact List.Sublist.cons₂ _ (List.Sublist.cons₂ _ (List.nil_sublist _))
  · rw [(C7_top_entities c7_results).2.2.2.2, hsorted]
    rfl

end ADEGuard
